import Mathlib

set_option linter.unusedSectionVars false

/-!
# Game2: Scene — scene loading and the per-frame update step of `main.cpp`

A shallow embedding of the game logic of `src/main.cpp`:

* the `scene.blob` record loop (lines 203–212) and `add_object` (lines 167–181);
* the construction of balloons, robot stack and game state (lines 216–263);
* the `//update game state:` block of the game loop (lines 297–383), and the loop around it.

Conventions.

* `float` values are elements of an arbitrary linearly ordered field `α` with a floor
  function (`ℚ` for evaluation, `ℝ` for statements about `π`); rounding is not modelled.
* `scene.objects` is a list that only grows at its end; an `Object *` is an index into it.
  A pointer that was never assigned is `none`; dereferencing it, or an index outside the
  list, is the fault `wild_pointer`.
* `Meshes::get`, `M_PI`, `cos`, `sin` and the shader handles are not defined in `main.cpp`;
  they are the fields of `Env`.
* The source has identifiers that are not declared anywhere (`pop_all`, `robot_stack_size()`,
  `vec3`, `glm::(...)`, `Null`, `uint8`); they are read as `popped_all`, `robot_stack.size()`,
  `glm::vec3`, `glm::vec3(...)`, `NULL`, `Uint8`.
* The `//camera:` block (lines 385–399) writes `scene.camera.transform` only and is not
  embedded; nothing below reads the camera.
-/

namespace Game2

/-! ## Data model -/

/-- Ways in which the embedded code stops without a result. -/
inductive Fault where
  /-- `std::runtime_error("index entry has out-of-range name begin/end")`, line 205. -/
  | out_of_range_name
  /-- `meshes.get(name)` (line 168) did not find the mesh. -/
  | mesh_not_found
  /-- An `Object *` that is uninitialised or does not point into `scene.objects` was used. -/
  | wild_pointer
  /-- The `CycleError` the specification asks of `set_parent`. -/
  | cycle
  deriving DecidableEq, Repr

/-- The type `glm::vec3`. -/
structure Vec3 (α : Type) where
  x : α
  y : α
  z : α
  deriving DecidableEq, Repr

/-- The type `glm::quat`; the constructor takes `w` first, as `glm::quat(w, x, y, z)` does. -/
structure Quat (α : Type) where
  w : α
  x : α
  y : α
  z : α
  deriving DecidableEq, Repr

/-- The `Scene::Transform` fields that `main.cpp` reads or writes. -/
structure Transform (α : Type) where
  position : Vec3 α
  rotation : Quat α
  scale : Vec3 α
  /-- The member written at lines 340, 349 and 358; a new object starts with it at zero,
  and nothing reads it. -/
  transformation : Vec3 α
  /-- The parent established by `set_parent`, as an index into `scene.objects`. -/
  parent : Option Nat
  deriving DecidableEq, Repr

/-- The drawable range `Meshes::get` hands back. -/
structure Mesh where
  vao : Nat
  start : Nat
  count : Nat
  deriving DecidableEq, Repr

/-- The type `Scene::Object`. -/
structure Object (α : Type) where
  transform : Transform α
  vao : Nat
  start : Nat
  count : Nat
  program : Nat
  program_mvp : Nat
  program_itmv : Nat
  deriving DecidableEq, Repr

/-- What `main.cpp` uses and does not define. -/
structure Env (α : Type) where
  /-- The mesh library behind `meshes.get`; `none` when the name is absent. -/
  meshes : String → Option Mesh
  program : Nat
  program_mvp : Nat
  program_itmv : Nat
  /-- The constant `float(M_PI)`. -/
  pi : α
  cos : α → α
  sin : α → α

/-- The record type `SceneEntry` of lines 192–197; `name_begin` and `name_end` are
`uint32_t`. -/
structure SceneEntry (α : Type) where
  name_begin : Nat
  name_end : Nat
  position : Vec3 α
  rotation : Quat α
  scale : Vec3 α
  deriving DecidableEq, Repr

/-- The keys read in lines 301–316. -/
inductive Scancode where
  | Z | X | A | S | SEMICOLON | COMMA | PERIOD | SLASH
  deriving DecidableEq, Repr

/-- The locals of `main` that the update block reads or writes. -/
structure State (α : Type) where
  /-- The list `scene.objects`. -/
  objects : List (Object α)
  balloon_1 : Nat
  balloon_2 : Nat
  balloon_3 : Nat
  balloon_pop_1 : Option Nat
  balloon_pop_2 : Option Nat
  balloon_pop_3 : Option Nat
  bounce_dir : Int
  bounce_speed : α
  popped : Fin 3 → Bool
  popped_all : Bool
  pop_timer : Fin 3 → α
  robot_stack : Fin 4 → Nat
  joint_rot : Fin 4 → α
  rot_axes : Fin 4 → Vec3 α
  ang_velocity : α
  should_quit : Bool

section Ops

variable {α : Type} [LinearOrderedField α] [FloorRing α]

/-! ## glm and libm -/

/-- Component-wise `a - b`. -/
def Vec3.sub (a b : Vec3 α) : Vec3 α := ⟨a.x - b.x, a.y - b.y, a.z - b.z⟩

/-- Component-wise `a + b`. -/
def Vec3.add (a b : Vec3 α) : Vec3 α := ⟨a.x + b.x, a.y + b.y, a.z + b.z⟩

/-- Component-wise product `a * b`. -/
def Vec3.mul (a b : Vec3 α) : Vec3 α := ⟨a.x * b.x, a.y * b.y, a.z * b.z⟩

/-- The function `glm::dot`. -/
def dot (a b : Vec3 α) : α := a.x * b.x + a.y * b.y + a.z * b.z

/-- The vector `glm::vec3(c)`. -/
def Vec3.splat (c : α) : Vec3 α := ⟨c, c, c⟩

/-- Rounding towards zero. -/
def trunc (q : α) : Int := if 0 ≤ q then Int.floor q else Int.ceil q

/-- The C function `fmod`: `x - n * y` with `n` the quotient `x / y` rounded towards zero. -/
def fmod (x y : α) : α := x - (trunc (x / y) : α) * y

/-- The function `glm::angleAxis(angle, v)`: `quat(cos(angle * 0.5), v * sin(angle * 0.5))`. -/
def angleAxis (env : Env α) (angle : α) (v : Vec3 α) : Quat α :=
  let s := env.sin (angle * 0.5)
  ⟨env.cos (angle * 0.5), v.x * s, v.y * s, v.z * s⟩

/-! ## Pointers into `scene.objects` -/

/-- Read through an `Object *`. -/
def read_object (objects : List (Object α)) (p : Nat) : Except Fault (Object α) :=
  match objects[p]? with
  | none => .error .wild_pointer
  | some o => .ok o

/-- Write through an `Object *`. -/
def modify_object (objects : List (Object α)) (p : Nat) (f : Object α → Object α) :
    Except Fault (List (Object α)) :=
  match objects[p]? with
  | none => .error .wild_pointer
  | some o => .ok (objects.set p (f o))

/-- The lambda `add_object` (lines 167–181): the new object is appended to `scene.objects`
and its address returned. -/
def add_object (env : Env α) (objects : List (Object α)) (name : String)
    (position : Vec3 α) (rotation : Quat α) (scale : Vec3 α) :
    Except Fault (Nat × List (Object α)) :=
  match env.meshes name with
  | none => .error .mesh_not_found
  | some mesh =>
    let object : Object α :=
      { transform :=
          { position := position, rotation := rotation, scale := scale,
            transformation := Vec3.splat 0, parent := none },
        vao := mesh.vao, start := mesh.start, count := mesh.count,
        program := env.program, program_mvp := env.program_mvp,
        program_itmv := env.program_itmv }
    .ok (objects.length, objects ++ [object])

/-! ## Reading `scene.blob`, lines 184–214 -/

/-- The value `std::string::npos` for a 64-bit `size_t`. -/
def npos : Nat := 2 ^ 64 - 1

/-- The search behind `std::string::find`: the offset of the first occurrence of `pat` in
the text, counted from `pos`, and `npos` when there is none. -/
def find_from (pat : List Char) : List Char → Nat → Nat
  | [], pos => if pat = [] then pos else npos
  | c :: cs, pos => if pat.isPrefixOf (c :: cs) then pos else find_from pat cs (pos + 1)

/-- The call `name.find(pat)`, an unsigned value. -/
def find (name pat : List Char) : Nat := find_from pat name 0

/-- The call `name.compare(other)`: zero exactly when the two strings are equal. -/
def compare (name other : List Char) : Int :=
  if name = other then 0 else if name < other then -1 else 1

/-- Line 207: `std::string name(&strings[0] + entry.name_begin, &strings[0] + entry.name_end)`. -/
def entry_name (strings : List Char) (entry : SceneEntry α) : List Char :=
  (strings.drop entry.name_begin).take (entry.name_end - entry.name_begin)

/-- Lines 204–211, the body of the loop over the records of the `scn0` chunk. -/
def load_entry (env : Env α) (strings : List Char) (objects : List (Object α))
    (entry : SceneEntry α) : Except Fault (List (Object α)) :=
  if ¬ (entry.name_begin ≤ entry.name_end ∧ entry.name_end ≤ strings.length) then
    .error .out_of_range_name
  else
    let name := entry_name strings entry
    if find name "Cube".toList ≥ 0 ∨ find name "Crate".toList ≥ 0
        ∨ compare name "Stand".toList = 0 then do
      let (_, objects) ←
        add_object env objects (String.mk name) entry.position entry.rotation entry.scale
      pure objects
    else pure objects

/-- Lines 203–212: the loop over `data`. -/
def load_scene (env : Env α) (strings : List Char) (data : List (SceneEntry α))
    (objects : List (Object α)) : Except Fault (List (Object α)) :=
  data.foldlM (load_entry env strings) objects

/-! ## Balloons, robot stack and game state, lines 216–263 -/

/-- Walk the parent chain upwards from `p`, at most `fuel` links, looking for `a`. -/
def reaches (objects : List (Object α)) (a : Nat) : Nat → Nat → Bool
  | 0, _ => false
  | fuel + 1, p =>
    if p = a then true
    else match objects[p]? with
      | none => false
      | some o => match o.transform.parent with
        | none => false
        | some q => reaches objects a fuel q

/-- Modelled from the spec: `Transform::set_parent` is declared in `Scene.hpp`, which is not
part of the sources. It establishes `parent = p` and fails with a `CycleError` when `p` is
the node itself or one of its descendants. -/
def set_parent (objects : List (Object α)) (child p : Nat) : Except Fault (List (Object α)) :=
  if reaches objects child (objects.length + 1) p then .error .cycle
  else modify_object objects child fun o =>
    { o with transform := { o.transform with parent := some p } }

/-- Lines 216–263: the balloons, the game state and the robot stack, built on the objects
read from `scene.blob`. -/
def init (env : Env α) (objects : List (Object α)) : Except Fault (State α) := do
  let (balloon_1, objects) ←
    add_object env objects "Balloon1.001" ⟨-0.03, 2.61, 1.18⟩ ⟨1, 0, 0, 0⟩ (Vec3.splat 1)
  let (balloon_2, objects) ←
    add_object env objects "Balloon2.001" ⟨-1.43, 0.81, 2.19⟩ ⟨1, 0, 0, 0⟩ (Vec3.splat 1)
  let (balloon_3, objects) ←
    add_object env objects "Balloon3.001" ⟨0.85, -2.08, 2.42⟩ ⟨1, 0, 0, 0⟩ (Vec3.splat 1)
  let popped : Fin 3 → Bool := fun _ => false
  let (base, objects) ← add_object env objects "Base" ⟨0, 0, 0⟩ ⟨0, 0, 0, 1⟩ (Vec3.splat 1)
  let (link1, objects) ← add_object env objects "Link1" ⟨0, 0, 0.6⟩ ⟨0, 0, 0, 1⟩ (Vec3.splat 1)
  let (link2, objects) ← add_object env objects "Link2" ⟨0, 0, 1.8⟩ ⟨0, 0, 0, 1⟩ (Vec3.splat 1)
  let (link3, objects) ← add_object env objects "Link3" ⟨0, 0, 3.0⟩ ⟨0, 0, 0, 1⟩ (Vec3.splat 1)
  let robot_stack : Fin 4 → Nat := ![base, link1, link2, link3]
  let objects ← set_parent objects (robot_stack 1) (robot_stack 0)
  let objects ← set_parent objects (robot_stack 2) (robot_stack 1)
  let objects ← set_parent objects (robot_stack 3) (robot_stack 2)
  pure
    { objects := objects,
      balloon_1 := balloon_1, balloon_2 := balloon_2, balloon_3 := balloon_3,
      balloon_pop_1 := none, balloon_pop_2 := none, balloon_pop_3 := none,
      bounce_dir := 1, bounce_speed := 0.2,
      popped := popped, popped_all := popped 0 && popped 1 && popped 2,
      pop_timer := fun _ => 0.0,
      robot_stack := robot_stack,
      joint_rot := fun _ => 0.0,
      rot_axes := Function.update (fun _ => ⟨1.0, 0.0, 0.0⟩) 0 ⟨0.0, 0.0, 1.0⟩,
      ang_velocity := 0.1,
      should_quit := false }

/-! ## World positions -/

/-- The product `glm::mat3_cast(q) * v`. -/
def rotate (q : Quat α) (v : Vec3 α) : Vec3 α :=
  ⟨(1 - 2 * (q.y * q.y + q.z * q.z)) * v.x + 2 * (q.x * q.y - q.w * q.z) * v.y
      + 2 * (q.x * q.z + q.w * q.y) * v.z,
   2 * (q.x * q.y + q.w * q.z) * v.x + (1 - 2 * (q.x * q.x + q.z * q.z)) * v.y
      + 2 * (q.y * q.z - q.w * q.x) * v.z,
   2 * (q.x * q.z - q.w * q.y) * v.x + 2 * (q.y * q.z + q.w * q.x) * v.y
      + (1 - 2 * (q.x * q.x + q.y * q.y)) * v.z⟩

/-- The point `Translate(position) * Rotate(rotation) * Scale(scale) * v`. -/
def local_to_parent (t : Transform α) (v : Vec3 α) : Vec3 α :=
  t.position.add (rotate t.rotation (t.scale.mul v))

/-- Modelled from the spec: `Transform::make_local_to_world_matrix` is declared in
`Scene.hpp`, which is not part of the sources. The world matrix is
`parent.world * Translate(position) * Rotate(rotation) * Scale(scale)`, and the local
composition alone for a node without parent; this is its action on the point `v`, following
at most `fuel` parent links. -/
def local_to_world (objects : List (Object α)) : Nat → Nat → Vec3 α → Option (Vec3 α)
  | 0, _, _ => none
  | fuel + 1, p, v =>
    match objects[p]? with
    | none => none
    | some o =>
      match o.transform.parent with
      | none => some (local_to_parent o.transform v)
      | some q => local_to_world objects fuel q (local_to_parent o.transform v)

/-- The world position of the object at `p`: the image of its local origin. -/
def world_position (objects : List (Object α)) (p : Nat) : Option (Vec3 α) :=
  local_to_world objects objects.length p ⟨0, 0, 0⟩

/-! ## The update block, lines 297–383 -/

/-- Lines 299–317, `//get key presses`: one `if`/`else if` chain over the key state. -/
def key_presses (keys : Scancode → Bool) (elapsed : α) (s : State α) : State α :=
  if keys .Z then
    { s with joint_rot := Function.update s.joint_rot 0 (s.joint_rot 0 + s.ang_velocity * elapsed) }
  else if keys .X then
    { s with joint_rot := Function.update s.joint_rot 0 (s.joint_rot 0 - s.ang_velocity * elapsed) }
  else if keys .A then
    { s with joint_rot := Function.update s.joint_rot 1 (s.joint_rot 1 + s.ang_velocity * elapsed) }
  else if keys .S then
    { s with joint_rot := Function.update s.joint_rot 1 (s.joint_rot 1 - s.ang_velocity * elapsed) }
  else if keys .SEMICOLON then
    { s with joint_rot := Function.update s.joint_rot 2 (s.ang_velocity * elapsed) }
  else if keys .COMMA then
    { s with joint_rot := Function.update s.joint_rot 2 (s.ang_velocity * elapsed) }
  else if keys .PERIOD then
    { s with joint_rot := Function.update s.joint_rot 3 (s.ang_velocity * elapsed) }
  else if keys .SLASH then
    { s with joint_rot := Function.update s.joint_rot 3 (s.ang_velocity * elapsed) }
  else s

/-- Line 321: `ang = fmod((2 + joint_rot[i] * 0.5f) * float(M_PI), 2 * float(M_PI))`. -/
def joint_angle (pi : α) (joint_rot_i : α) : α :=
  fmod ((2 + joint_rot_i * 0.5) * pi) (2 * pi)

/-- Lines 321–322, the body of the `//robot stack:` loop for one `i`. -/
def robot_stack_body (env : Env α) (s : State α) (i : Fin 4) : Except Fault (State α) := do
  let ang := joint_angle env.pi (s.joint_rot i)
  let objects ← modify_object s.objects (s.robot_stack i) fun o =>
    { o with transform := { o.transform with rotation := angleAxis env ang (s.rot_axes i) } }
  pure { s with objects := objects }

/-- Lines 319–323: the loop over `i = 0 .. robot_stack.size() - 1`. -/
def robot_stack_update (env : Env α) (s : State α) : Except Fault (State α) :=
  ([0, 1, 2, 3] : List (Fin 4)).foldlM (robot_stack_body env) s

/-- The statement `b->transform.position.z += dz`. -/
def move_z (objects : List (Object α)) (b : Nat) (dz : α) : Except Fault (List (Object α)) :=
  modify_object objects b fun o =>
    { o with transform :=
        { o.transform with position := { o.transform.position with z := o.transform.position.z + dz } } }

/-- Lines 325–329, `//balloon bounce`. -/
def balloon_bounce (elapsed : α) (s : State α) : Except Fault (State α) := do
  let objects ← move_z s.objects s.balloon_1 (elapsed * s.bounce_speed * (s.bounce_dir : α))
  let objects ← move_z objects s.balloon_2 (-(elapsed * s.bounce_speed * (s.bounce_dir : α)))
  let objects ← move_z objects s.balloon_3 (elapsed * s.bounce_speed * (s.bounce_dir : α))
  pure { s with objects := objects, bounce_dir := s.bounce_dir * (-1) }

/-- Line 333: `pin = robot_stack[robot_stack.size() - 1]->transform.position`. -/
def pin (s : State α) : Except Fault (Vec3 α) := do
  let o ← read_object s.objects (s.robot_stack 3)
  pure o.transform.position

/-- The body shared by the three pop branches (lines 335–340, 344–349, 353–358): the pop
visual is added with the balloon's transform, then the balloon's `scale` and
`transformation` are overwritten. The address of the new object is returned. -/
def pop_balloon (env : Env α) (name : String) (balloon : Nat) (objects : List (Object α)) :
    Except Fault (Nat × List (Object α)) := do
  let b ← read_object objects balloon
  let (pop, objects) ←
    add_object env objects name b.transform.position b.transform.rotation b.transform.scale
  let objects ← modify_object objects balloon fun o =>
    { o with transform := { o.transform with scale := Vec3.splat 0 } }
  let objects ← modify_object objects balloon fun o =>
    { o with transform := { o.transform with transformation := ⟨0, 0, 50⟩ } }
  pure (pop, objects)

/-- Lines 334–342: the pop test of `balloon_1`. -/
def pop_test_1 (env : Env α) (pin : Vec3 α) (s : State α) : Except Fault (State α) := do
  let b1 ← read_object s.objects s.balloon_1
  if dot (b1.transform.position.sub pin) (b1.transform.position.sub pin) ≤ 1.0 then
    let (pop, objects) ← pop_balloon env "Balloon1-Pop" s.balloon_1 s.objects
    pure { s with objects := objects, balloon_pop_1 := some pop,
                  popped := Function.update s.popped 0 true }
  else pure s

/-- Lines 343–351: the pop test of `balloon_2`; the second factor of the `dot` is
`balloon_1->transform.position - pin`. -/
def pop_test_2 (env : Env α) (pin : Vec3 α) (s : State α) : Except Fault (State α) := do
  let b2 ← read_object s.objects s.balloon_2
  let b1 ← read_object s.objects s.balloon_1
  if dot (b2.transform.position.sub pin) (b1.transform.position.sub pin) ≤ 1.0 then
    let (pop, objects) ← pop_balloon env "Balloon2-Pop" s.balloon_2 s.objects
    pure { s with objects := objects, balloon_pop_2 := some pop,
                  popped := Function.update s.popped 1 true }
  else pure s

/-- Lines 352–360: the pop test of `balloon_3`; the mesh name is `"Balloon2-Pop"`. -/
def pop_test_3 (env : Env α) (pin : Vec3 α) (s : State α) : Except Fault (State α) := do
  let b3 ← read_object s.objects s.balloon_3
  if dot (b3.transform.position.sub pin) (b3.transform.position.sub pin) ≤ 1.0 then
    let (pop, objects) ← pop_balloon env "Balloon2-Pop" s.balloon_3 s.objects
    pure { s with objects := objects, balloon_pop_3 := some pop,
                  popped := Function.update s.popped 2 true }
  else pure s

/-- The statement `balloon_pop_k->transform.scale = glm::vec3(0.0f)`. -/
def collapse (ref : Option Nat) (s : State α) : Except Fault (State α) :=
  match ref with
  | none => .error .wild_pointer
  | some p => do
    let objects ← modify_object s.objects p fun o =>
      { o with transform := { o.transform with scale := Vec3.splat 0 } }
    pure { s with objects := objects }

/-- Lines 367–375: the `switch (i)`. No case ends in `break`, so control runs from the
case labelled `i` through every later case down to `default`. -/
def switch_pop (i : Fin 3) (s : State α) : Except Fault (State α) :=
  match i with
  | 0 => do
    let s ← collapse s.balloon_pop_1 s
    let s ← collapse s.balloon_pop_2 s
    collapse s.balloon_pop_3 s
  | 1 => do
    let s ← collapse s.balloon_pop_2 s
    collapse s.balloon_pop_3 s
  | 2 => collapse s.balloon_pop_3 s

/-- Lines 364–377, the body of the `//check balloon pop` loop for one `i`. -/
def check_balloon_pop_body (elapsed : α) (s : State α) (i : Fin 3) : Except Fault (State α) :=
  if s.popped i then
    let s := { s with pop_timer := Function.update s.pop_timer i (s.pop_timer i + elapsed) }
    if s.pop_timer i ≥ 0.2 then switch_pop i s else pure s
  else pure s

/-- Lines 362–378: the loop over `i = 0 .. popped.size() - 1`. -/
def check_balloon_pop (elapsed : α) (s : State α) : Except Fault (State α) :=
  ([0, 1, 2] : List (Fin 3)).foldlM (check_balloon_pop_body elapsed) s

/-- Lines 380–383: `popped_all` is recomputed and `should_quit` set when it holds. -/
def check_popped_all (s : State α) : State α :=
  let s := { s with popped_all := s.popped 0 && s.popped 1 && s.popped 2 }
  if s.popped_all then { s with should_quit := true } else s

/-- The pop tests of lines 331–360, with `pin` read once before the first of them. -/
def pop_tests (env : Env α) (s : State α) : Except Fault (State α) := do
  let pin ← pin s
  let s ← pop_test_1 env pin s
  let s ← pop_test_2 env pin s
  pop_test_3 env pin s

/-- Lines 299–329: key presses, robot stack and balloon bounce, the part of the update
block that runs before the pop tests. -/
def advance (env : Env α) (keys : Scancode → Bool) (elapsed : α) (s : State α) :
    Except Fault (State α) := do
  let s := key_presses keys elapsed s
  let s ← robot_stack_update env s
  balloon_bounce elapsed s

/-- The update block of one frame, lines 297–383, for the key state `keys` and the frame
time `elapsed`. -/
def update (env : Env α) (keys : Scancode → Bool) (elapsed : α) (s : State α) :
    Except Fault (State α) := do
  let s ← advance env keys elapsed s
  let s ← pop_tests env s
  let s ← check_balloon_pop elapsed s
  pure (check_popped_all s)

/-- The game loop of lines 270–418 over a list of frames, each with its key state and its
frame time: the loop is left when `should_quit` is set (line 290), and otherwise the update
block runs. Rendering does not change the state; the events that set `should_quit`
(lines 282–286) and the mouse are not part of a frame here. -/
def game_loop (env : Env α) : List ((Scancode → Bool) × α) → State α → Except Fault (State α)
  | [], s => pure s
  | frame :: frames, s =>
    if s.should_quit then pure s
    else do
      let s ← update env frame.1 frame.2 s
      game_loop env frames s

end Ops

/-! ## Closed forms used in the statements -/

section Forms

variable {α : Type} [LinearOrderedField α] [FloorRing α]

/-- The object `add_object` builds from a mesh and a position, rotation and scale. -/
def new_object (env : Env α) (mesh : Mesh) (position : Vec3 α) (rotation : Quat α)
    (scale : Vec3 α) : Object α :=
  { transform :=
      { position := position, rotation := rotation, scale := scale,
        transformation := Vec3.splat 0, parent := none },
    vao := mesh.vao, start := mesh.start, count := mesh.count,
    program := env.program, program_mvp := env.program_mvp, program_itmv := env.program_itmv }

/-- The pop visual that a pop branch builds from the balloon `b`. -/
def pop_visual (env : Env α) (mesh : Mesh) (b : Object α) : Object α :=
  new_object env mesh b.transform.position b.transform.rotation b.transform.scale

/-- The balloon `b` after its pop branch ran. -/
def burst (b : Object α) : Object α :=
  { b with transform :=
      { b.transform with scale := Vec3.splat 0, transformation := ⟨0, 0, 50⟩ } }

/-- The object `o` with its `scale` overwritten by `glm::vec3(0.0f)`. -/
def collapsed (o : Object α) : Object α :=
  { o with transform := { o.transform with scale := Vec3.splat 0 } }

/-- The `scale` of the object an `Object *` points to, when it points to one. -/
def scale_at (objects : List (Object α)) (p : Nat) : Option (Vec3 α) :=
  (objects[p]?).map fun o => o.transform.scale

/-- The `position` of the object an `Object *` points to, when it points to one. -/
def position_at (objects : List (Object α)) (p : Nat) : Option (Vec3 α) :=
  (objects[p]?).map fun o => o.transform.position

/-- The scene after a pop branch ran for the balloon at `balloon`, which was `b`. -/
def popped_objects (env : Env α) (mesh : Mesh) (objects : List (Object α)) (balloon : Nat)
    (b : Object α) : List (Object α) :=
  (objects ++ [pop_visual env mesh b]).set balloon (burst b)

end Forms

/-! ## A concrete scene over `ℚ` -/

/-- An environment over `ℚ`: every mesh name is known, and `cos` and `sin` are the constant
functions that agree with the real ones at the angle `0`. -/
def demo_env : Env ℚ :=
  { meshes := fun _ => some ⟨1, 0, 3⟩, program := 1, program_mvp := 0, program_itmv := 1,
    pi := 355 / 113, cos := fun _ => 1, sin := fun _ => 0 }

/-- An object of the concrete scene. -/
def demo_object (position : Vec3 ℚ) (rotation : Quat ℚ) (parent : Option Nat) : Object ℚ :=
  { transform := { position := position, rotation := rotation, scale := Vec3.splat 1,
                   transformation := Vec3.splat 0, parent := parent },
    vao := 1, start := 0, count := 3, program := 1, program_mvp := 0, program_itmv := 1 }

/-- The seven objects lines 216–246 add to an empty scene. -/
def demo_objects : List (Object ℚ) :=
  [ demo_object ⟨-0.03, 2.61, 1.18⟩ ⟨1, 0, 0, 0⟩ none,
    demo_object ⟨-1.43, 0.81, 2.19⟩ ⟨1, 0, 0, 0⟩ none,
    demo_object ⟨0.85, -2.08, 2.42⟩ ⟨1, 0, 0, 0⟩ none,
    demo_object ⟨0, 0, 0⟩ ⟨0, 0, 0, 1⟩ none,
    demo_object ⟨0, 0, 0.6⟩ ⟨0, 0, 0, 1⟩ (some 3),
    demo_object ⟨0, 0, 1.8⟩ ⟨0, 0, 0, 1⟩ (some 4),
    demo_object ⟨0, 0, 3.0⟩ ⟨0, 0, 0, 1⟩ (some 5) ]

/-- The state lines 216–263 build on an empty scene. -/
def demo_state : State ℚ :=
  { objects := demo_objects,
    balloon_1 := 0, balloon_2 := 1, balloon_3 := 2,
    balloon_pop_1 := none, balloon_pop_2 := none, balloon_pop_3 := none,
    bounce_dir := 1, bounce_speed := 0.2,
    popped := fun _ => false, popped_all := false,
    pop_timer := fun _ => 0,
    robot_stack := ![3, 4, 5, 6],
    joint_rot := fun _ => 0,
    rot_axes := Function.update (fun _ => ⟨1, 0, 0⟩) 0 ⟨0, 0, 1⟩,
    ang_velocity := 0.1,
    should_quit := false }

/-- No key is down. -/
def no_keys : Scancode → Bool := fun _ => false

/-- The concrete scene with the three balloons lifted by `d1`, `d2`, `d3` and every robot
part carrying the rotation `angleAxis(0, axis)`, which is `quat(1, 0, 0, 0)`. -/
def bounced_objects (d1 d2 d3 : ℚ) : List (Object ℚ) :=
  [ demo_object ⟨-0.03, 2.61, 1.18 + d1⟩ ⟨1, 0, 0, 0⟩ none,
    demo_object ⟨-1.43, 0.81, 2.19 + d2⟩ ⟨1, 0, 0, 0⟩ none,
    demo_object ⟨0.85, -2.08, 2.42 + d3⟩ ⟨1, 0, 0, 0⟩ none,
    demo_object ⟨0, 0, 0⟩ ⟨1, 0, 0, 0⟩ none,
    demo_object ⟨0, 0, 0.6⟩ ⟨1, 0, 0, 0⟩ (some 3),
    demo_object ⟨0, 0, 1.8⟩ ⟨1, 0, 0, 0⟩ (some 4),
    demo_object ⟨0, 0, 3.0⟩ ⟨1, 0, 0, 0⟩ (some 5) ]

/-- The concrete state after a first frame with `elapsed = 0` and no key down. -/
def frame_1_state : State ℚ :=
  { demo_state with objects := bounced_objects 0 0 0, bounce_dir := -1 }

/-- The concrete state in a second frame with `elapsed = 6` and no key down, when the pop
tests start. -/
def frame_2_bounced : State ℚ :=
  { demo_state with objects := bounced_objects (-1.2) 1.2 (-1.2), bounce_dir := 1 }

/-- The key state with exactly the key `k` down. -/
def only_key (k : Scancode) : Scancode → Bool := fun j => decide (j = k)

/-- What the part of the update block before the pop tests leaves alone: every local but
`joint_rot` and `bounce_dir`, the number of scene objects and the scale of each of them. -/
structure Kept {α : Type} (s s' : State α) : Prop where
  balloon_1 : s'.balloon_1 = s.balloon_1
  balloon_2 : s'.balloon_2 = s.balloon_2
  balloon_3 : s'.balloon_3 = s.balloon_3
  balloon_pop_1 : s'.balloon_pop_1 = s.balloon_pop_1
  balloon_pop_2 : s'.balloon_pop_2 = s.balloon_pop_2
  balloon_pop_3 : s'.balloon_pop_3 = s.balloon_pop_3
  popped : s'.popped = s.popped
  pop_timer : s'.pop_timer = s.pop_timer
  should_quit : s'.should_quit = s.should_quit
  length : s'.objects.length = s.objects.length
  scale : ∀ p, scale_at s'.objects p = scale_at s.objects p

/-- The identity rotation `quat(1, 0, 0, 0)`. -/
def quat_one : Quat ℚ := ⟨1, 0, 0, 0⟩

/-- A state of the model in which balloons 1 and 2 are popped, far from the pin, and have
their pop visuals, objects 7 and 8, at scale `1`; balloon 3 is intact and half a unit below
the pin, which is at `(0, 0, 3)`. No run from `init` reaches it, because `popped[0]` is never
set there; it serves to run lines 380–383 with all three flags set. -/
def last_pop_state : State ℚ :=
  { demo_state with
    objects :=
      [ burst (demo_object ⟨-0.03, 2.61, 1.18⟩ quat_one none),
        burst (demo_object ⟨-1.43, 0.81, 2.19⟩ quat_one none),
        demo_object ⟨0, 0, 2.5⟩ quat_one none,
        demo_object ⟨0, 0, 0⟩ quat_one none,
        demo_object ⟨0, 0, 0.6⟩ quat_one (some 3),
        demo_object ⟨0, 0, 1.8⟩ quat_one (some 4),
        demo_object ⟨0, 0, 3.0⟩ quat_one (some 5),
        demo_object ⟨-0.03, 2.61, 1.18⟩ quat_one none,
        demo_object ⟨-1.43, 0.81, 2.19⟩ quat_one none ],
    balloon_pop_1 := some 7, balloon_pop_2 := some 8,
    popped := ![true, true, false],
    pop_timer := ![0.19, 0.05, 0] }

/-- The property `P` holds of the state a step returns. -/
def returns {α : Type} (r : Except Fault (State α)) (P : State α → Prop) : Prop :=
  match r with
  | .ok s => P s
  | .error _ => False

/-- The concrete scene after its first frame, with balloon 3 moved to `(0, 0, 5.4)`, the
world position of `Link3` when every joint angle is `0`. -/
def tip_state : State ℚ :=
  { frame_1_state with
    objects :=
      [ demo_object ⟨-0.03, 2.61, 1.18⟩ quat_one none,
        demo_object ⟨-1.43, 0.81, 2.19⟩ quat_one none,
        demo_object ⟨0, 0, 5.4⟩ quat_one none,
        demo_object ⟨0, 0, 0⟩ quat_one none,
        demo_object ⟨0, 0, 0.6⟩ quat_one (some 3),
        demo_object ⟨0, 0, 1.8⟩ quat_one (some 4),
        demo_object ⟨0, 0, 3.0⟩ quat_one (some 5) ] }

/-- A string buffer holding the names `Base` and `Balloon1.001`. -/
def demo_strings : List Char := "BaseBalloon1.001".toList

/-- The record named `Base` over `demo_strings`, with the transform line 239 gives it. -/
def base_entry : SceneEntry ℚ := ⟨0, 4, ⟨0, 0, 0⟩, ⟨0, 0, 0, 1⟩, ⟨1, 1, 1⟩⟩

/-- The record named `Balloon1.001` over `demo_strings`, with the transform line 217 gives
it. -/
def balloon_entry : SceneEntry ℚ := ⟨4, 16, ⟨-0.03, 2.61, 1.18⟩, ⟨1, 0, 0, 0⟩, ⟨1, 1, 1⟩⟩

/-- The concrete scene with the balloons lifted by `d`, `-d` and `d`, as the bounce of lines
326–328 leaves them, and the next bounce going in direction `dir`. -/
def bounce_state (d : ℚ) (dir : Int) : State ℚ :=
  { demo_state with objects := bounced_objects d (-d) d, bounce_dir := dir }

/-- The concrete scene once balloon 2 has popped at the lift `-1.2`: the balloons are lifted
by `d`, `-d` and `d`, balloon 2 has scale zero, and object 7 is its pop visual, a copy of
the balloon as it was at `(-1.43, 0.81, 3.39)`. -/
def popped_2_objects (d : ℚ) : List (Object ℚ) :=
  [ demo_object ⟨-0.03, 2.61, 1.18 + d⟩ ⟨1, 0, 0, 0⟩ none,
    burst (demo_object ⟨-1.43, 0.81, 2.19 + -d⟩ ⟨1, 0, 0, 0⟩ none),
    demo_object ⟨0.85, -2.08, 2.42 + d⟩ ⟨1, 0, 0, 0⟩ none,
    demo_object ⟨0, 0, 0⟩ ⟨1, 0, 0, 0⟩ none,
    demo_object ⟨0, 0, 0.6⟩ ⟨1, 0, 0, 0⟩ (some 3),
    demo_object ⟨0, 0, 1.8⟩ ⟨1, 0, 0, 0⟩ (some 4),
    demo_object ⟨0, 0, 3.0⟩ ⟨1, 0, 0, 0⟩ (some 5),
    demo_object ⟨-1.43, 0.81, 3.39⟩ ⟨1, 0, 0, 0⟩ none ]

/-- The concrete state with balloon 2 popped for `t` seconds, the balloons at lift `d` and
the next bounce going in direction `dir`. -/
def popped_2_at (d : ℚ) (dir : Int) (t : ℚ) : State ℚ :=
  { demo_state with
    objects := popped_2_objects d, bounce_dir := dir,
    balloon_pop_2 := some 7,
    popped := Function.update (fun _ => false) 1 true,
    pop_timer := Function.update (fun _ => 0) 1 t }

/-- The concrete state after four frames of `0`, `5.95`, `0.05` and `0.1` seconds with no
key down: balloon 2 has just popped. -/
def popped_2_state : State ℚ := popped_2_at (-1.2) 1 0.1

/-- Four frames with no key down: the first of `0` seconds, as in every run, then a stall of
`5.95` seconds and two frames of `0.05` and `0.1` seconds. -/
def stall_frames : List ((Scancode → Bool) × ℚ) :=
  [(no_keys, 0), (no_keys, 5.95), (no_keys, 0.05), (no_keys, 0.1)]

/-! ## Properties -/

section Lemmas

variable {α : Type} [LinearOrderedField α] [FloorRing α]

theorem lt_length_of_getElem? {β : Type} {l : List β} {i : Nat} {b : β}
    (h : l[i]? = some b) : i < l.length := by
  by_contra hc
  rw [List.getElem?_eq_none (by omega)] at h
  cases h

theorem getElem?_append_of_some {β : Type} {l : List β} {i : Nat} {b : β}
    (h : l[i]? = some b) (t : List β) : (l ++ t)[i]? = some b := by
  rw [List.getElem?_append_left (lt_length_of_getElem? h)]; exact h

theorem read_object_of {objects : List (Object α)} {p : Nat} {o : Object α}
    (h : objects[p]? = some o) : read_object objects p = .ok o := by
  simp only [read_object, h]

theorem modify_object_of {objects : List (Object α)} {p : Nat} {o : Object α}
    (h : objects[p]? = some o) (f : Object α → Object α) :
    modify_object objects p f = .ok (objects.set p (f o)) := by
  simp only [modify_object, h]

theorem add_object_of {env : Env α} {name : String} {mesh : Mesh}
    (h : env.meshes name = some mesh) (objects : List (Object α))
    (position : Vec3 α) (rotation : Quat α) (scale : Vec3 α) :
    add_object env objects name position rotation scale
      = .ok (objects.length, objects ++ [new_object env mesh position rotation scale]) := by
  simp only [add_object, h, new_object]

theorem pop_balloon_of {env : Env α} {name : String} {mesh : Mesh} {balloon : Nat}
    {objects : List (Object α)} {b : Object α}
    (hb : objects[balloon]? = some b) (hm : env.meshes name = some mesh) :
    pop_balloon env name balloon objects
      = .ok (objects.length, (objects ++ [pop_visual env mesh b]).set balloon (burst b)) := by
  have hi := lt_length_of_getElem? hb
  have h1 : (objects ++ [pop_visual env mesh b])[balloon]? = some b :=
    getElem?_append_of_some hb _
  have h2 : ((objects ++ [pop_visual env mesh b]).set balloon
      { b with transform := { b.transform with scale := Vec3.splat 0 } })[balloon]?
        = some { b with transform := { b.transform with scale := Vec3.splat 0 } } := by
    rw [List.getElem?_set_self]
    simp only [List.length_append, List.length_singleton]; omega
  simp only [pop_balloon, read_object_of hb, bind, Except.bind, add_object_of hm, pure,
    Except.pure]
  simp only [← pop_visual.eq_1, modify_object_of h1, modify_object_of h2, List.set_set, burst]

/-! ### The pop test of `balloon_1` -/

theorem one_point_zero : (1.0 : α) = 1 := by norm_num

theorem init_demo : init demo_env [] = .ok demo_state := by
  simp [init, add_object, demo_env, bind, Except.bind, pure, Except.pure, set_parent, reaches,
    modify_object, demo_state, demo_objects, demo_object, Vec3.splat]
  norm_num

theorem advance_demo_state : advance demo_env no_keys 0 demo_state = .ok frame_1_state := by
  simp [advance, key_presses, no_keys, robot_stack_update, robot_stack_body, modify_object,
    demo_state, demo_objects, bind, Except.bind, pure, Except.pure, List.foldlM, balloon_bounce,
    move_z, frame_1_state, bounced_objects, demo_object, angleAxis, demo_env]

theorem update_demo_state : update demo_env no_keys 0 demo_state = .ok frame_1_state := by
  simp only [update, advance_demo_state, bind, Except.bind]
  simp [bind, Except.bind, pop_tests, pin, read_object, frame_1_state, bounced_objects,
    demo_state, pop_test_1, pop_test_2, pop_test_3, pure, Except.pure, demo_object, dot,
    Vec3.sub, check_balloon_pop, check_balloon_pop_body, check_popped_all]
  norm_num

theorem advance_frame_1_state :
    advance demo_env no_keys 6 frame_1_state = .ok frame_2_bounced := by
  simp [advance, key_presses, no_keys, robot_stack_update, robot_stack_body, modify_object,
    demo_state, bind, Except.bind, pure, Except.pure, List.foldlM, balloon_bounce, move_z,
    frame_1_state, frame_2_bounced, bounced_objects, demo_object, angleAxis, demo_env]
  norm_num

theorem update_frame_1_state :
    update demo_env no_keys 6 frame_1_state = .error .wild_pointer := by
  simp only [update, advance_frame_1_state, bind, Except.bind]
  simp [bind, Except.bind, pop_tests, pin, read_object, frame_2_bounced, bounced_objects,
    demo_state, pop_test_1, pop_test_2, pop_test_3, pure, Except.pure, demo_object, dot,
    Vec3.sub, check_balloon_pop, check_balloon_pop_body, check_popped_all, pop_balloon,
    add_object, modify_object, demo_env, switch_pop, collapse]
  norm_num

/-! ### The pop test of `balloon_2` -/

theorem pop_test_2_of_le {env : Env α} {p : Vec3 α} {s : State α} {b1 b2 : Object α}
    {mesh : Mesh} (hb2 : s.objects[s.balloon_2]? = some b2)
    (hb1 : s.objects[s.balloon_1]? = some b1)
    (hm : env.meshes "Balloon2-Pop" = some mesh)
    (hd : dot (b2.transform.position.sub p) (b1.transform.position.sub p) ≤ 1) :
    pop_test_2 env p s = .ok
      { s with objects := popped_objects env mesh s.objects s.balloon_2 b2,
               balloon_pop_2 := some s.objects.length,
               popped := Function.update s.popped 1 true } := by
  simp only [pop_test_2, read_object_of hb1, read_object_of hb2, bind, Except.bind,
    one_point_zero, hd, if_true, pop_balloon_of hb2 hm, pure, Except.pure, popped_objects]

/-- C4, the code at a failing input: start from the empty scene, run a first frame with
`elapsed = 0` and a second one with `elapsed = 6`, no key down. When the pop tests of the
second frame start, the pin is at `(0, 0, 3)` and balloon 2 at `(-1.43, 0.81, 3.39)`, at
squared distance `2.8531 > 1` from the pin; the test of line 343 multiplies balloon 2's
offset with balloon 1's, gets `0.9792 <= 1`, and pops balloon 2. -/
theorem pop_test_2_reads_balloon_1 :
    update demo_env no_keys 0 demo_state = .ok frame_1_state
    ∧ advance demo_env no_keys 6 frame_1_state = .ok frame_2_bounced
    ∧ pin frame_2_bounced = .ok ⟨0, 0, 3⟩
    ∧ position_at frame_2_bounced.objects frame_2_bounced.balloon_2
        = some ⟨-1.43, 0.81, 3.39⟩
    ∧ dot ((⟨-1.43, 0.81, 3.39⟩ : Vec3 ℚ).sub ⟨0, 0, 3⟩)
          ((⟨-1.43, 0.81, 3.39⟩ : Vec3 ℚ).sub ⟨0, 0, 3⟩) = 2.8531
    ∧ ∃ s', pop_test_2 demo_env ⟨0, 0, 3⟩ frame_2_bounced = .ok s'
        ∧ s'.popped 1 = true
        ∧ scale_at s'.objects s'.balloon_2 = some (Vec3.splat 0)
        ∧ s'.objects.length = frame_2_bounced.objects.length + 1 := by
  refine ⟨update_demo_state, advance_frame_1_state, ?_, ?_, ?_, ?_⟩
  · simp [pin, read_object, frame_2_bounced, demo_state, bounced_objects, demo_object, bind,
      Except.bind, pure, Except.pure]
    norm_num
  · simp [position_at, frame_2_bounced, demo_state, bounced_objects, demo_object]
    norm_num
  · norm_num [dot, Vec3.sub]
  · have h := @pop_test_2_of_le ℚ _ _ demo_env ⟨0, 0, 3⟩ frame_2_bounced
      (demo_object ⟨-0.03, 2.61, 1.18 + -1.2⟩ ⟨1, 0, 0, 0⟩ none)
      (demo_object ⟨-1.43, 0.81, 2.19 + 1.2⟩ ⟨1, 0, 0, 0⟩ none)
      ⟨1, 0, 3⟩ rfl rfl rfl (by norm_num [dot, Vec3.sub, demo_object])
    refine ⟨_, h, ?_, ?_, ?_⟩
    · simp
    · simp [scale_at, popped_objects, frame_2_bounced, demo_state, bounced_objects, burst]
    · simp [popped_objects, frame_2_bounced, demo_state, bounced_objects]

/-! ### Reading one record of `scene.blob` -/

theorem add_object_ne_out_of_range (env : Env α) (objects : List (Object α)) (name : String)
    (position : Vec3 α) (rotation : Quat α) (scale : Vec3 α) :
    (add_object env objects name position rotation scale >>= fun r => pure r.2)
      ≠ (.error .out_of_range_name : Except Fault (List (Object α))) := by
  unfold add_object
  cases env.meshes name <;> simp [bind, Except.bind, pure, Except.pure]

/-- C5: loading a record throws the out-of-range error, and so adds no object, if and only
if `name_begin > name_end` or `name_end` exceeds the length of the string buffer; otherwise
the record's name has `name_end - name_begin` characters and its `k`-th character is the
buffer's character at `name_begin + k`. -/
theorem load_entry_out_of_range_iff (env : Env α) (strings : List Char)
    (objects : List (Object α)) (entry : SceneEntry α) :
    (load_entry env strings objects entry = .error .out_of_range_name
        ↔ (entry.name_begin > entry.name_end ∨ entry.name_end > strings.length))
    ∧ (¬ (entry.name_begin > entry.name_end ∨ entry.name_end > strings.length) →
        (entry_name strings entry).length = entry.name_end - entry.name_begin
        ∧ ∀ k, k < entry.name_end - entry.name_begin →
            (entry_name strings entry)[k]? = strings[entry.name_begin + k]?) := by
  constructor
  · by_cases h : entry.name_begin ≤ entry.name_end ∧ entry.name_end ≤ strings.length
    · have hn : ¬ (entry.name_begin > entry.name_end ∨ entry.name_end > strings.length) := by
        omega
      have hf : find (entry_name strings entry) "Cube".toList ≥ 0 := Nat.zero_le _
      simp only [load_entry, h, not_true_eq_false, if_false, hf, true_or, if_true, hn,
        iff_false]
      exact add_object_ne_out_of_range env objects _ _ _ _
    · have hn : entry.name_begin > entry.name_end ∨ entry.name_end > strings.length := by
        omega
      simp only [load_entry, h, not_false_eq_true, if_true, hn]
  · intro h
    have h1 : entry.name_begin ≤ entry.name_end := by omega
    have h2 : entry.name_end ≤ strings.length := by omega
    constructor
    · simp only [entry_name, List.length_take, List.length_drop]
      omega
    · intro k hk
      simp only [entry_name]
      rw [List.getElem?_take_of_lt hk, List.getElem?_drop]

/-- C5 for the record `[0, 5)` over the buffer `"Stand"`. -/
theorem load_entry_out_of_range_iff_witness :
    (entry_name "Stand".toList (⟨0, 5, ⟨0, 0, 0⟩, ⟨1, 0, 0, 0⟩, ⟨1, 1, 1⟩⟩ : SceneEntry ℚ)).length
        = 5 - 0
    ∧ ∀ k, k < 5 - 0 →
        (entry_name "Stand".toList (⟨0, 5, ⟨0, 0, 0⟩, ⟨1, 0, 0, 0⟩, ⟨1, 1, 1⟩⟩ : SceneEntry ℚ))[k]?
          = "Stand".toList[0 + k]? :=
  (load_entry_out_of_range_iff demo_env "Stand".toList []
    ⟨0, 5, ⟨0, 0, 0⟩, ⟨1, 0, 0, 0⟩, ⟨1, 1, 1⟩⟩).2 (by decide)

/-! ### Joint angles -/

/-- C7, amended: the angle `ang` of line 321 lies strictly between `-2 * pi` and `2 * pi`;
it lies in `[0, 2 * pi)` when `joint_rot[i] >= -4`, and in `(-2 * pi, 0]` when
`joint_rot[i] <= -4`. -/
theorem joint_angle_range (jr : ℝ) :
    (-(2 * Real.pi) < joint_angle Real.pi jr ∧ joint_angle Real.pi jr < 2 * Real.pi)
    ∧ (-4 ≤ jr → 0 ≤ joint_angle Real.pi jr)
    ∧ (jr ≤ -4 → joint_angle Real.pi jr ≤ 0) := by
  have hpi : (0 : ℝ) < 2 * Real.pi := by positivity
  have key : ∀ x : ℝ, fmod x (2 * Real.pi)
      = (x / (2 * Real.pi) - (trunc (x / (2 * Real.pi)) : ℝ)) * (2 * Real.pi) := by
    intro x
    simp only [fmod]
    field_simp
    ring
  have hx : ∀ jr : ℝ, (0 ≤ ((2 + jr * 0.5) * Real.pi) / (2 * Real.pi)) ↔ -4 ≤ jr := by
    intro jr
    rw [div_nonneg_iff]
    constructor
    · rintro (⟨h, _⟩ | ⟨_, h⟩)
      · have := Real.pi_pos
        have h2 : 0 ≤ 2 + jr * 0.5 := by
          by_contra hc
          push_neg at hc
          nlinarith
        norm_num at h2
        linarith
      · linarith
    · intro h
      left
      refine ⟨?_, hpi.le⟩
      have := Real.pi_pos
      have h2 : 0 ≤ 2 + jr * 0.5 := by norm_num; linarith
      positivity
  set q := ((2 + jr * 0.5) * Real.pi) / (2 * Real.pi) with hq
  have hval : joint_angle Real.pi jr = (q - (trunc q : ℝ)) * (2 * Real.pi) := by
    simp only [joint_angle, key, hq]
  rw [hval]
  by_cases h0 : 0 ≤ q
  · have ht : trunc q = Int.floor q := by simp only [trunc, h0, if_true]
    have h1 : 0 ≤ q - (trunc q : ℝ) := by rw [ht]; linarith [Int.floor_le q]
    have h2 : q - (trunc q : ℝ) < 1 := by rw [ht]; linarith [Int.lt_floor_add_one q]
    refine ⟨⟨by nlinarith, by nlinarith⟩, fun _ => by positivity, fun hj => ?_⟩
    have hq0 : q = 0 := by
      have : -4 ≤ jr := (hx jr).1 h0
      have hj4 : jr = -4 := le_antisymm hj this
      rw [hq, hj4]; norm_num
    rw [ht, hq0]; simp
  · have ht : trunc q = Int.ceil q := by simp only [trunc, h0, if_false]
    have h1 : q - (trunc q : ℝ) ≤ 0 := by rw [ht]; linarith [Int.le_ceil q]
    have h2 : -1 < q - (trunc q : ℝ) := by rw [ht]; linarith [Int.ceil_lt_add_one q]
    refine ⟨⟨by nlinarith, by nlinarith⟩, fun hj => absurd ((hx jr).2 hj) h0, fun _ => ?_⟩
    nlinarith

/-- C7, amended, at `joint_rot[i] = 0`: the angle is not negative. -/
theorem joint_angle_range_witness : 0 ≤ joint_angle Real.pi 0 :=
  (joint_angle_range 0).2.1 (by norm_num)

/-- C7 as stated fails: for `joint_rot[i] = -5` the angle is `-pi / 2`, below `0`. -/
theorem joint_angle_negative :
    joint_angle Real.pi (-5) = -(Real.pi / 2)
    ∧ ¬ (0 ≤ joint_angle Real.pi (-5) ∧ joint_angle Real.pi (-5) < 2 * Real.pi) := by
  have hpi := Real.pi_pos
  have hq : ((2 + (-5 : ℝ) * 0.5) * Real.pi) / (2 * Real.pi) = -(1 / 4) := by
    field_simp; ring
  have ht : trunc (-(1 / 4) : ℝ) = 0 := by
    have hneg : ¬ (0 : ℝ) ≤ -(1 / 4) := by norm_num
    simp only [trunc, hneg, if_false]
    rw [Int.ceil_eq_iff]
    norm_num
  have hv : joint_angle Real.pi (-5) = -(Real.pi / 2) := by
    simp only [joint_angle, fmod, hq, ht]
    norm_num
    ring
  refine ⟨hv, ?_⟩
  rw [hv]
  intro h
  linarith [h.1]

/-! ### Key presses -/

theorem key_presses_Z (s : State α) (elapsed : α) :
    (key_presses (only_key .Z) elapsed s).joint_rot
      = Function.update s.joint_rot 0 (s.joint_rot 0 + s.ang_velocity * elapsed) := by
  simp [key_presses, only_key]

theorem key_presses_S (s : State α) (elapsed : α) :
    (key_presses (only_key .S) elapsed s).joint_rot
      = Function.update s.joint_rot 1 (s.joint_rot 1 - s.ang_velocity * elapsed) := by
  simp [key_presses, only_key]

theorem key_presses_SEMICOLON (s : State α) (elapsed : α) :
    key_presses (only_key .SEMICOLON) elapsed s
      = { s with joint_rot := Function.update s.joint_rot 2 (s.ang_velocity * elapsed) } := by
  simp [key_presses, only_key]

theorem key_presses_COMMA (s : State α) (elapsed : α) :
    key_presses (only_key .COMMA) elapsed s
      = { s with joint_rot := Function.update s.joint_rot 2 (s.ang_velocity * elapsed) } := by
  simp [key_presses, only_key]

/-- C9, the code at a failing input: in the concrete scene hold `;` alone for two frames of
one second each. After the first frame `joint_rot[2]` is `0.1`; after the second it is
`0.1` again, not `0.1 + 0.1 * 1`, because line 310 assigns with `=`. Holding `,` alone in
the second frame gives `0.1` as well, not `0.1 - 0.1 * 1`. The angles of the other joints
stay as they were. -/
theorem key_presses_overwrites_joint_2 :
    (key_presses (only_key .SEMICOLON) 1 demo_state).joint_rot 2 = 0.1
    ∧ (key_presses (only_key .SEMICOLON) 1
        (key_presses (only_key .SEMICOLON) 1 demo_state)).joint_rot 2 = 0.1
    ∧ (key_presses (only_key .SEMICOLON) 1
        (key_presses (only_key .SEMICOLON) 1 demo_state)).joint_rot 2
        ≠ (key_presses (only_key .SEMICOLON) 1 demo_state).joint_rot 2
            + (key_presses (only_key .SEMICOLON) 1 demo_state).ang_velocity * 1
    ∧ (key_presses (only_key .COMMA) 1
        (key_presses (only_key .SEMICOLON) 1 demo_state)).joint_rot 2
        ≠ (key_presses (only_key .SEMICOLON) 1 demo_state).joint_rot 2
            - (key_presses (only_key .SEMICOLON) 1 demo_state).ang_velocity * 1 := by
  simp only [key_presses_SEMICOLON, key_presses_COMMA, Function.update_same]
  norm_num [demo_state]

/-! ### What the steps before the pop tests leave alone -/

theorem foldlM_invariant {σ ι : Type} (R : σ → σ → Prop) (hrefl : ∀ s, R s s)
    (htrans : ∀ a b c, R a b → R b c → R a c) (body : σ → ι → Except Fault σ)
    (hbody : ∀ s i s', body s i = .ok s' → R s s') :
    ∀ (l : List ι) (s s' : σ), l.foldlM body s = .ok s' → R s s' := by
  intro l
  induction l with
  | nil =>
    intro s s' h
    simp only [List.foldlM, pure, Except.pure, Except.ok.injEq] at h
    exact h ▸ hrefl s
  | cons i l ih =>
    intro s s' h
    simp only [List.foldlM, bind, Except.bind] at h
    cases hb : body s i with
    | error e => rw [hb] at h; cases h
    | ok t =>
      rw [hb] at h
      exact htrans _ _ _ (hbody _ _ _ hb) (ih _ _ h)

theorem Kept.refl (s : State α) : Kept s s :=
  ⟨rfl, rfl, rfl, rfl, rfl, rfl, rfl, rfl, rfl, rfl, fun _ => rfl⟩

theorem Kept.trans (a b c : State α) (h1 : Kept a b) (h2 : Kept b c) : Kept a c :=
  ⟨h2.balloon_1.trans h1.balloon_1, h2.balloon_2.trans h1.balloon_2,
   h2.balloon_3.trans h1.balloon_3, h2.balloon_pop_1.trans h1.balloon_pop_1,
   h2.balloon_pop_2.trans h1.balloon_pop_2, h2.balloon_pop_3.trans h1.balloon_pop_3,
   h2.popped.trans h1.popped, h2.pop_timer.trans h1.pop_timer,
   h2.should_quit.trans h1.should_quit, h2.length.trans h1.length,
   fun p => (h2.scale p).trans (h1.scale p)⟩

theorem modify_object_ok {objects objects' : List (Object α)} {p : Nat}
    {f : Object α → Object α} (h : modify_object objects p f = .ok objects') :
    ∃ o, objects[p]? = some o ∧ objects' = objects.set p (f o) := by
  unfold modify_object at h
  cases ho : objects[p]? with
  | none => rw [ho] at h; cases h
  | some o =>
    rw [ho] at h
    simp only [Except.ok.injEq] at h
    exact ⟨o, rfl, h.symm⟩

theorem scale_set_same {objects : List (Object α)} {p : Nat} {o o' : Object α}
    (ho : objects[p]? = some o) (hs : o'.transform.scale = o.transform.scale) (q : Nat) :
    scale_at (objects.set p o') q = scale_at objects q := by
  unfold scale_at
  by_cases hq : p = q
  · subst hq
    rw [List.getElem?_set_self (lt_length_of_getElem? ho), ho]
    simp only [Option.map_some', hs]
  · rw [List.getElem?_set_ne hq]

theorem Kept.of_modify {s : State α} {objects : List (Object α)} {p : Nat}
    {f : Object α → Object α} (h : modify_object s.objects p f = .ok objects)
    (hf : ∀ o, (f o).transform.scale = o.transform.scale) :
    Kept s { s with objects := objects } := by
  obtain ⟨o, ho, rfl⟩ := modify_object_ok h
  exact ⟨rfl, rfl, rfl, rfl, rfl, rfl, rfl, rfl, rfl, List.length_set _ _ _,
    scale_set_same ho (hf o)⟩

theorem Kept.key_presses (keys : Scancode → Bool) (elapsed : α) (s : State α) :
    Kept s (key_presses keys elapsed s) := by
  unfold Game2.key_presses
  split_ifs <;> exact ⟨rfl, rfl, rfl, rfl, rfl, rfl, rfl, rfl, rfl, rfl, fun _ => rfl⟩

theorem Kept.robot_stack_body (env : Env α) (s : State α) (i : Fin 4) (s' : State α)
    (h : robot_stack_body env s i = .ok s') : Kept s s' := by
  simp only [Game2.robot_stack_body, bind, Except.bind, pure, Except.pure] at h
  split at h
  · cases h
  · rename_i objects hm
    simp only [Except.ok.injEq] at h
    subst h
    exact Kept.of_modify hm (fun _ => rfl)

theorem Kept.robot_stack_update (env : Env α) (s s' : State α)
    (h : robot_stack_update env s = .ok s') : Kept s s' :=
  foldlM_invariant Kept Kept.refl Kept.trans _ (Kept.robot_stack_body env) _ _ _ h

theorem Kept.balloon_bounce (elapsed : α) (s s' : State α)
    (h : balloon_bounce elapsed s = .ok s') : Kept s s' := by
  simp only [Game2.balloon_bounce, move_z, bind, Except.bind, pure, Except.pure] at h
  split at h
  · cases h
  · rename_i o1 h1
    split at h
    · cases h
    · rename_i o2 h2
      split at h
      · cases h
      · rename_i o3 h3
        simp only [Except.ok.injEq] at h
        subst h
        have k1 : Kept s { s with objects := o1 } := Kept.of_modify h1 (fun _ => rfl)
        have k2 : Kept { s with objects := o1 } { s with objects := o2 } :=
          @Kept.of_modify α _ _ { s with objects := o1 } o2 _ _ h2 (fun _ => rfl)
        have k3 : Kept { s with objects := o2 } { s with objects := o3 } :=
          @Kept.of_modify α _ _ { s with objects := o2 } o3 _ _ h3 (fun _ => rfl)
        have k := Kept.trans _ _ _ (Kept.trans _ _ _ k1 k2) k3
        exact ⟨k.balloon_1, k.balloon_2, k.balloon_3, k.balloon_pop_1, k.balloon_pop_2,
          k.balloon_pop_3, k.popped, k.pop_timer, k.should_quit, k.length, k.scale⟩

theorem Kept.advance (env : Env α) (keys : Scancode → Bool) (elapsed : α) (s s' : State α)
    (h : advance env keys elapsed s = .ok s') : Kept s s' := by
  simp only [Game2.advance, bind, Except.bind] at h
  split at h
  · cases h
  · rename_i t ht
    exact Kept.trans _ _ _
      (Kept.trans _ _ _ (Kept.key_presses keys elapsed s) (Kept.robot_stack_update env _ _ ht))
      (Kept.balloon_bounce elapsed _ _ h)

/-! ### What the pop tests and the timer loop leave alone -/

theorem pop_balloon_ok {env : Env α} {name : String} {balloon : Nat}
    {objects : List (Object α)} {r : Nat × List (Object α)}
    (h : pop_balloon env name balloon objects = .ok r) :
    ∃ b mesh, objects[balloon]? = some b ∧ env.meshes name = some mesh
      ∧ r = (objects.length, popped_objects env mesh objects balloon b) := by
  cases hb : objects[balloon]? with
  | none =>
    simp only [pop_balloon, read_object, hb, bind, Except.bind] at h
    cases h
  | some b =>
    cases hm : env.meshes name with
    | none =>
      simp only [pop_balloon, read_object, hb, bind, Except.bind, add_object, hm] at h
      cases h
    | some mesh =>
      rw [pop_balloon_of hb hm] at h
      simp only [Except.ok.injEq] at h
      exact ⟨b, mesh, rfl, rfl, h.symm⟩

theorem pop_test_1_should_quit {env : Env α} {p : Vec3 α} {s s' : State α}
    (h : pop_test_1 env p s = .ok s') : s'.should_quit = s.should_quit := by
  simp only [pop_test_1, bind, Except.bind, pure, Except.pure] at h
  split at h
  · cases h
  · split_ifs at h
    · split at h
      · cases h
      · simp only [Except.ok.injEq] at h
        rw [← h]
    · simp only [Except.ok.injEq] at h
      rw [← h]

theorem pop_test_2_should_quit {env : Env α} {p : Vec3 α} {s s' : State α}
    (h : pop_test_2 env p s = .ok s') : s'.should_quit = s.should_quit := by
  simp only [pop_test_2, bind, Except.bind, pure, Except.pure] at h
  split at h
  · cases h
  · split at h
    · cases h
    · split_ifs at h
      · split at h
        · cases h
        · simp only [Except.ok.injEq] at h
          rw [← h]
      · simp only [Except.ok.injEq] at h
        rw [← h]

theorem pop_test_3_should_quit {env : Env α} {p : Vec3 α} {s s' : State α}
    (h : pop_test_3 env p s = .ok s') : s'.should_quit = s.should_quit := by
  simp only [pop_test_3, bind, Except.bind, pure, Except.pure] at h
  split at h
  · cases h
  · split_ifs at h
    · split at h
      · cases h
      · simp only [Except.ok.injEq] at h
        rw [← h]
    · simp only [Except.ok.injEq] at h
      rw [← h]

theorem pop_tests_should_quit {env : Env α} {s s' : State α}
    (h : pop_tests env s = .ok s') : s'.should_quit = s.should_quit := by
  simp only [pop_tests, bind, Except.bind] at h
  split at h
  · cases h
  · split at h
    · cases h
    · rename_i t1 h1
      split at h
      · cases h
      · rename_i t2 h2
        rw [pop_test_3_should_quit h, pop_test_2_should_quit h2, pop_test_1_should_quit h1]

theorem collapse_ok {ref : Option Nat} {s s' : State α} (h : collapse ref s = .ok s') :
    ∃ r o, ref = some r ∧ s.objects[r]? = some o
      ∧ s' = { s with objects := s.objects.set r (collapsed o) } := by
  cases ref with
  | none => simp only [collapse] at h; cases h
  | some r =>
    simp only [collapse, bind, Except.bind, pure, Except.pure] at h
    split at h
    · cases h
    · rename_i objects hm
      obtain ⟨o, ho, rfl⟩ := modify_object_ok hm
      simp only [Except.ok.injEq] at h
      exact ⟨r, o, rfl, ho, h.symm⟩

theorem collapse_should_quit {ref : Option Nat} {s s' : State α}
    (h : collapse ref s = .ok s') : s'.should_quit = s.should_quit := by
  obtain ⟨r, o, _, _, rfl⟩ := collapse_ok h
  rfl

theorem switch_pop_should_quit {i : Fin 3} {s s' : State α}
    (h : switch_pop i s = .ok s') : s'.should_quit = s.should_quit := by
  fin_cases i
  · simp only [switch_pop, bind, Except.bind] at h
    split at h
    · cases h
    · rename_i t1 h1
      split at h
      · cases h
      · rename_i t2 h2
        rw [collapse_should_quit h, collapse_should_quit h2, collapse_should_quit h1]
  · simp only [switch_pop, bind, Except.bind] at h
    split at h
    · cases h
    · rename_i t1 h1
      rw [collapse_should_quit h, collapse_should_quit h1]
  · simp only [switch_pop] at h
    exact collapse_should_quit h

theorem check_balloon_pop_body_should_quit (elapsed : α) (s : State α) (i : Fin 3)
    (s' : State α) (h : check_balloon_pop_body elapsed s i = .ok s') :
    s'.should_quit = s.should_quit := by
  simp only [check_balloon_pop_body] at h
  split_ifs at h
  · have h' := switch_pop_should_quit h
    exact h'
  · simp only [pure, Except.pure, Except.ok.injEq] at h
    rw [← h]
  · simp only [pure, Except.pure, Except.ok.injEq] at h
    rw [← h]

theorem check_balloon_pop_should_quit {elapsed : α} {s s' : State α}
    (h : check_balloon_pop elapsed s = .ok s') : s'.should_quit = s.should_quit :=
  foldlM_invariant (fun a b : State α => b.should_quit = a.should_quit) (fun _ => rfl)
    (fun _ _ _ h1 h2 => h2.trans h1) _ (check_balloon_pop_body_should_quit elapsed) _ _ _ h

theorem update_ok {env : Env α} {keys : Scancode → Bool} {elapsed : α} {s s' : State α}
    (h : update env keys elapsed s = .ok s') :
    ∃ s1 s2 s3, advance env keys elapsed s = .ok s1 ∧ pop_tests env s1 = .ok s2
      ∧ check_balloon_pop elapsed s2 = .ok s3 ∧ s' = check_popped_all s3 := by
  simp only [update, bind, Except.bind, pure, Except.pure] at h
  split at h
  · cases h
  · rename_i s1 h1
    split at h
    · cases h
    · rename_i s2 h2
      split at h
      · cases h
      · rename_i s3 h3
        simp only [Except.ok.injEq] at h
        exact ⟨s1, s2, s3, h1, h2, h3, h.symm⟩

/-! ### Evaluating a step -/

theorem exists_of_returns {r : Except Fault (State α)} {P : State α → Prop}
    (h : returns r P) : ∃ s', r = .ok s' ∧ P s' := by
  cases r with
  | error e => exact h.elim
  | ok s => exact ⟨s, rfl, h⟩

/-! ### The pop test of `balloon_3` -/

/-- C8, the code at a failing input: the concrete scene after its first frame, every joint
angle `0`, with balloon 3 placed at `(0, 0, 5.4)`. That point is the world position of
`Link3`, the image of the local origin under the four composed local transforms, so the
squared distance of balloon 3 to the end effector is `0`. The pin of line 333 is `Link3`'s
own `position` field, `(0, 0, 3)`, at squared distance `5.76` from the balloon, and an
update step with `elapsed = 0` leaves balloon 3 intact. -/
theorem pin_is_local_position :
    world_position tip_state.objects (tip_state.robot_stack 3) = some ⟨0, 0, 5.4⟩
    ∧ position_at tip_state.objects tip_state.balloon_3 = some ⟨0, 0, 5.4⟩
    ∧ pin tip_state = .ok ⟨0, 0, 3⟩
    ∧ dot ((⟨0, 0, 5.4⟩ : Vec3 ℚ).sub ⟨0, 0, 3⟩) ((⟨0, 0, 5.4⟩ : Vec3 ℚ).sub ⟨0, 0, 3⟩) = 5.76
    ∧ ∃ s', update demo_env no_keys 0 tip_state = .ok s'
        ∧ s'.popped 2 = false
        ∧ s'.objects.length = tip_state.objects.length
        ∧ scale_at s'.objects s'.balloon_3 = some (Vec3.splat 1)
        ∧ position_at s'.objects s'.balloon_3 = some ⟨0, 0, 5.4⟩
        ∧ world_position s'.objects (s'.robot_stack 3) = some ⟨0, 0, 5.4⟩ := by
  refine ⟨?_, ?_, ?_, ?_, ?_⟩
  · simp [world_position, local_to_world, local_to_parent, rotate, tip_state, frame_1_state,
      demo_state, demo_object, quat_one, Vec3.add, Vec3.mul, Vec3.splat]
    norm_num
  · simp [position_at, tip_state, frame_1_state, demo_state, demo_object]
  · simp [pin, read_object, tip_state, frame_1_state, demo_state, demo_object, bind,
      Except.bind, pure, Except.pure]
    norm_num
  · norm_num [dot, Vec3.sub]
  · apply exists_of_returns
    simp [update, advance, key_presses, no_keys, robot_stack_update, robot_stack_body,
      modify_object, tip_state, frame_1_state, demo_state, bind, Except.bind, pure,
      Except.pure, List.foldlM, balloon_bounce, move_z, demo_object, angleAxis, demo_env,
      pop_tests, pin, read_object, pop_test_1, pop_test_2, pop_test_3, dot, Vec3.sub,
      check_balloon_pop, check_balloon_pop_body, check_popped_all, returns, quat_one,
      scale_at, position_at, Vec3.splat, world_position, local_to_world, local_to_parent,
      rotate, Vec3.add, Vec3.mul]
    norm_num
    simp [local_to_world, local_to_parent, rotate, Vec3.add, Vec3.mul]
    norm_num

/-! ### The `//check balloon pop` loop in closed form -/

theorem load_entry_in_range (env : Env α) (strings : List Char) (objects : List (Object α))
    (entry : SceneEntry α)
    (h : entry.name_begin ≤ entry.name_end ∧ entry.name_end ≤ strings.length) :
    load_entry env strings objects entry
      = (add_object env objects (String.mk (entry_name strings entry)) entry.position
          entry.rotation entry.scale >>= fun r => pure r.2) := by
  have hf : find (entry_name strings entry) "Cube".toList ≥ 0 := Nat.zero_le _
  simp only [load_entry, h, and_self, not_true_eq_false, if_false, hf, true_or, if_true]

/-- C11, the code at a failing input: a string buffer with the names `Base` and
`Balloon1.001` and one record for each. Neither name contains `Cube` or `Crate`, for which
`find` returns `npos`, and neither equals `Stand`; the test `find(...) >= 0` of line 209
holds all the same, and the loader adds both records to the scene. -/
theorem load_scene_adds_base_and_balloon :
    entry_name demo_strings base_entry = "Base".toList
    ∧ entry_name demo_strings balloon_entry = "Balloon1.001".toList
    ∧ find "Base".toList "Cube".toList = npos
    ∧ find "Base".toList "Crate".toList = npos
    ∧ compare "Base".toList "Stand".toList ≠ 0
    ∧ find "Balloon1.001".toList "Cube".toList = npos
    ∧ find "Balloon1.001".toList "Crate".toList = npos
    ∧ compare "Balloon1.001".toList "Stand".toList ≠ 0
    ∧ load_scene demo_env demo_strings [base_entry, balloon_entry] []
        = .ok [ new_object demo_env ⟨1, 0, 3⟩ ⟨0, 0, 0⟩ ⟨0, 0, 0, 1⟩ ⟨1, 1, 1⟩,
                new_object demo_env ⟨1, 0, 3⟩ ⟨-0.03, 2.61, 1.18⟩ ⟨1, 0, 0, 0⟩ ⟨1, 1, 1⟩ ] := by
  refine ⟨by decide, by decide, by decide, by decide, by decide, by decide, by decide,
    by decide, ?_⟩
  have h1 : base_entry.name_begin ≤ base_entry.name_end
      ∧ base_entry.name_end ≤ demo_strings.length := by decide
  have h2 : balloon_entry.name_begin ≤ balloon_entry.name_end
      ∧ balloon_entry.name_end ≤ demo_strings.length := by decide
  simp only [load_scene, List.foldlM, load_entry_in_range _ _ _ _ h1, bind, Except.bind,
    add_object, demo_env, pure, Except.pure, load_entry_in_range _ _ _ _ h2]
  rfl

/-! ### A run in which balloon 2 pops -/

theorem update_frame_1_stall :
    update demo_env no_keys 5.95 frame_1_state = .ok (bounce_state (-1.19) 1) := by
  simp [update, advance, key_presses, no_keys, robot_stack_update, robot_stack_body,
    modify_object, frame_1_state, bounce_state, bounced_objects, demo_state, bind,
    Except.bind, pure, Except.pure, List.foldlM, balloon_bounce, move_z, demo_object,
    angleAxis, demo_env, pop_tests, pin, read_object, pop_test_1, pop_test_2, pop_test_3,
    dot, Vec3.sub, check_balloon_pop, check_balloon_pop_body, check_popped_all]
  norm_num

theorem update_stalled :
    update demo_env no_keys 0.05 (bounce_state (-1.19) 1) = .ok (bounce_state (-1.18) (-1)) := by
  simp [update, advance, key_presses, no_keys, robot_stack_update, robot_stack_body,
    modify_object, bounce_state, bounced_objects, demo_state, bind,
    Except.bind, pure, Except.pure, List.foldlM, balloon_bounce, move_z, demo_object,
    angleAxis, demo_env, pop_tests, pin, read_object, pop_test_1, pop_test_2, pop_test_3,
    dot, Vec3.sub, check_balloon_pop, check_balloon_pop_body, check_popped_all]
  norm_num

theorem update_settled :
    update demo_env no_keys 0.1 (bounce_state (-1.18) (-1)) = .ok popped_2_state := by
  simp [update, advance, key_presses, no_keys, robot_stack_update, robot_stack_body,
    modify_object, bounce_state, bounced_objects, demo_state, bind,
    Except.bind, pure, Except.pure, List.foldlM, balloon_bounce, move_z, demo_object,
    angleAxis, demo_env, pop_tests, pin, read_object, pop_test_1, pop_test_2, pop_test_3,
    dot, Vec3.sub, check_balloon_pop, check_balloon_pop_body, check_popped_all, pop_balloon,
    add_object, switch_pop, collapse, popped_2_state, popped_2_at, popped_2_objects, burst,
    Vec3.splat]
  norm_num
  simp [Function.update_apply]

theorem run_stall_frames :
    (init demo_env [] >>= game_loop demo_env stall_frames) = .ok popped_2_state := by
  have h0 : demo_state.should_quit = false := rfl
  have h1 : frame_1_state.should_quit = false := rfl
  have h2 : (bounce_state (-1.19) 1).should_quit = false := rfl
  have h3 : (bounce_state (-1.18) (-1)).should_quit = false := rfl
  simp only [init_demo, bind, Except.bind, stall_frames, game_loop, h0, h1, h2, h3,
    Bool.false_eq_true, if_false, update_demo_state, update_frame_1_stall, update_stalled,
    update_settled, pure, Except.pure]

/-! ### The termination flag, lines 380–383 -/

/-- C6: an update step that starts with `should_quit` clear, as every step of the game loop
does, ends with `should_quit` set if and only if all three balloons are popped at the end of
that step. The flag is decided by the last statement of the block alone: with `s3` the state
the `//check balloon pop` loop returns, `should_quit` is still clear in `s3`, and the step
ends in `s3` with `popped_all` and `should_quit` both overwritten by
`popped[0] && popped[1] && popped[2]`; `popped` and every other local are those of `s3`. -/
theorem update_should_quit_iff (env : Env α) (keys : Scancode → Bool) (elapsed : α)
    (s s' : State α) (h : update env keys elapsed s = .ok s') (hq : s.should_quit = false) :
    (s'.should_quit = true
      ↔ (s'.popped 0 = true ∧ s'.popped 1 = true ∧ s'.popped 2 = true))
    ∧ ∃ s3, (advance env keys elapsed s >>= pop_tests env >>= check_balloon_pop elapsed)
          = .ok s3
        ∧ s3.should_quit = false
        ∧ s' = { s3 with popped_all := s3.popped 0 && s3.popped 1 && s3.popped 2,
                         should_quit := s3.popped 0 && s3.popped 1 && s3.popped 2 } := by
  obtain ⟨s1, s2, s3, h1, h2, h3, rfl⟩ := update_ok h
  have hq3 : s3.should_quit = false := by
    rw [check_balloon_pop_should_quit h3, pop_tests_should_quit h2,
      (Kept.advance env keys elapsed s s1 h1).should_quit, hq]
  constructor
  · simp only [check_popped_all]
    split_ifs with hall
    · simp only [Bool.and_eq_true] at hall
      simp only [true_iff]
      exact ⟨hall.1.1, hall.1.2, hall.2⟩
    · simp only [Bool.and_eq_true] at hall
      simp only [hq3, Bool.false_eq_true, false_iff]
      intro hc
      exact hall ⟨⟨hc.1, hc.2.1⟩, hc.2.2⟩
  · refine ⟨s3, ?_, hq3, ?_⟩
    · simp only [h1, h2, h3, bind, Except.bind]
    · simp only [check_popped_all]
      split_ifs with hall
      · simp only [hall]
      · have hf : (s3.popped 0 && s3.popped 1 && s3.popped 2) = false := by
          simpa using hall
        simp only [hf, ← hq3]

theorem update_last_pop_state :
    ∃ s', update demo_env no_keys 0.02 last_pop_state = .ok s'
      ∧ s'.popped 0 = true ∧ s'.popped 1 = true ∧ s'.popped 2 = true := by
  apply exists_of_returns
  simp [update, advance, key_presses, no_keys, robot_stack_update, robot_stack_body,
    modify_object, last_pop_state, demo_state, bind, Except.bind, pure, Except.pure,
    List.foldlM, balloon_bounce, move_z, demo_object, angleAxis, demo_env, pop_tests, pin,
    read_object, pop_test_1, pop_test_2, pop_test_3, dot, Vec3.sub, check_balloon_pop,
    check_balloon_pop_body, check_popped_all, pop_balloon, add_object, switch_pop, collapse,
    returns, burst, quat_one, scale_at, Vec3.splat]
  norm_num
  simp [Function.update_apply]

/-- C6 on both sides. In the fourth frame of the run `stall_frames` balloon 2 pops while
balloons 1 and 3 are intact, and the flag stays clear. In the state `last_pop_state` the
third balloon pops in the step, and the flag is set at its end. -/
theorem update_should_quit_iff_witness :
    (popped_2_state.popped 1 = true ∧ popped_2_state.popped 0 = false
      ∧ popped_2_state.should_quit = false)
    ∧ ∃ s', update demo_env no_keys 0.02 last_pop_state = .ok s'
        ∧ (s'.popped 0 = true ∧ s'.popped 1 = true ∧ s'.popped 2 = true)
        ∧ s'.should_quit = true :=
  ⟨⟨rfl, rfl, by
      have h := (update_should_quit_iff demo_env no_keys 0.1 (bounce_state (-1.18) (-1))
        popped_2_state update_settled rfl).1
      cases hc : popped_2_state.should_quit with
      | false => rfl
      | true => exact absurd (h.mp hc).1 (by decide)⟩,
   update_last_pop_state.imp fun s' hs =>
    ⟨hs.1, hs.2, ((update_should_quit_iff demo_env no_keys 0.02 last_pop_state s' hs.1
      rfl).1).mpr hs.2⟩⟩

/-! ### The `switch` of the pop timers falls through -/

/-- C3, the code at a failing input: the run `stall_frames`, after which balloon 2 has been
popped for `0.1` seconds, its pop visual is object 7, and `balloon_pop_3` has never been
assigned, followed by a frame of `0.1` seconds. The timer of balloon 2 reaches `0.2` and the
`switch` is entered at `case 1`. That case alone would collapse object 7 and stop; without
a `break` the `switch` runs on into `case 2` and writes through `balloon_pop_3`, the pop
visual of another balloon, and the step ends in a wild pointer. In every state `case 0`
collapses `balloon_pop_1` and then does all that `case 1` does. -/
theorem switch_falls_through :
    (init demo_env [] >>= game_loop demo_env stall_frames) = .ok popped_2_state
    ∧ popped_2_state.popped 1 = true
    ∧ popped_2_state.pop_timer 1 = 0.1
    ∧ popped_2_state.popped 2 = false
    ∧ popped_2_state.balloon_pop_2 = some 7
    ∧ popped_2_state.balloon_pop_3 = none
    ∧ (∃ t, collapse popped_2_state.balloon_pop_2 popped_2_state = .ok t
        ∧ scale_at popped_2_state.objects 7 = some (Vec3.splat 1)
        ∧ scale_at t.objects 7 = some (Vec3.splat 0))
    ∧ switch_pop 1 popped_2_state = .error .wild_pointer
    ∧ update demo_env no_keys 0.1 popped_2_state = .error .wild_pointer
    ∧ ∀ s : State ℚ, switch_pop 0 s = (collapse s.balloon_pop_1 s >>= switch_pop 1) := by
  refine ⟨run_stall_frames, rfl, ?_, rfl, rfl, rfl, ?_, ?_, ?_, fun _ => rfl⟩
  · simp [popped_2_state, popped_2_at]
  · apply exists_of_returns
    simp [collapse, modify_object, popped_2_state, popped_2_at, popped_2_objects, demo_state,
      bind, Except.bind, pure, Except.pure, returns, scale_at, demo_object, Vec3.splat]
  · simp [switch_pop, collapse, modify_object, popped_2_state, popped_2_at, popped_2_objects,
      demo_state, bind, Except.bind, pure, Except.pure]
  · simp [update, advance, key_presses, no_keys, robot_stack_update, robot_stack_body,
      modify_object, popped_2_state, popped_2_at, popped_2_objects, demo_state, bind,
      Except.bind, pure, Except.pure, List.foldlM, balloon_bounce, move_z, demo_object,
      angleAxis, demo_env, pop_tests, pin, read_object, pop_test_1, pop_test_2, pop_test_3,
      dot, Vec3.sub, check_balloon_pop, check_balloon_pop_body, check_popped_all,
      pop_balloon, add_object, switch_pop, collapse, burst, Vec3.splat]
    norm_num

/-! ### Pop tests on a balloon that is popped already -/

end Lemmas

end Game2
